import Mathlib

/-!
Verification of `lib/ansible/modules/storage/netapp/na_ontap_gather_facts.py`
(NetApp ONTAP fact collector).

The module issues a fixed catalog of ZAPI "get-iter" calls, flattens each XML
response into a keyed mapping (or a plain list), and returns the aggregate
dictionary.  We embed the parsed-record data model (Python dicts / lists /
strings / numbers / None as produced by `xmltodict.parse` followed by
`json.loads(json.dumps(.))`), the helper functions `_finditem` and
`convert_keys`, and the methods `call_api`, `get_generic_get_iter`,
`get_ifgrp_info` and `get_all` of class `NetAppGatherFacts`.

The external ZAPI session is modelled as a function from (call name, query
parameters) to either a parsed response or a protocol-level `NaApiError`
detail string.  A response element is modelled at the granularity the module
observes it: `get_child_by_name` on a container name yields the container's
children, each child already in its `xmltodict`-parsed form (the parser is an
external collaborator of the module).  `module.fail_json` aborts the run and
is modelled as the `failJson` error of an `Except` monad; unhandled Python
exceptions (KeyError, TypeError, AttributeError, ValueError) are modelled as
the `pyError` case.
-/

namespace NaGatherFacts

/-- Parsed record values: Python `None`, `str`, numbers, `dict` (an ordered
association list, keys unique) and `list`, as produced by `xmltodict.parse`
with `xml_attribs=False` followed by the JSON round trip. -/
inductive Val : Type where
  | vnull : Val
  | vstr : String → Val
  | vnum : Int → Val
  | vobj : List (String × Val) → Val
  | varr : List Val → Val

mutual

/-- Structural (Python `==`) equality test on parsed values. -/
def valEq : Val → Val → Bool
  | .vnull, .vnull => true
  | .vstr a, .vstr b => a == b
  | .vnum a, .vnum b => a == b
  | .vobj a, .vobj b => fieldsEq a b
  | .varr a, .varr b => listValEq a b
  | _, _ => false

def fieldsEq : List (String × Val) → List (String × Val) → Bool
  | [], [] => true
  | (k1, v1) :: r1, (k2, v2) :: r2 => k1 == k2 && valEq v1 v2 && fieldsEq r1 r2
  | _, _ => false

def listValEq : List Val → List Val → Bool
  | [], [] => true
  | a :: r1, b :: r2 => valEq a b && listValEq r1 r2
  | _, _ => false

end

mutual

theorem valEq_refl : (v : Val) → valEq v v = true
  | .vnull => rfl
  | .vstr s => by simp [valEq]
  | .vnum n => by simp [valEq]
  | .vobj fs => by simpa [valEq] using fieldsEq_refl fs
  | .varr l => by simpa [valEq] using listValEq_refl l

theorem fieldsEq_refl : (l : List (String × Val)) → fieldsEq l l = true
  | [] => rfl
  | (k, v) :: rest => by
      simp [fieldsEq]
      exact ⟨valEq_refl v, fieldsEq_refl rest⟩

theorem listValEq_refl : (l : List Val) → listValEq l l = true
  | [] => rfl
  | v :: rest => by
      simp [listValEq]
      exact ⟨valEq_refl v, listValEq_refl rest⟩

end

/-- Equality test on dictionary keys.  A key produced by the module is either
a found value (usually a string) or Python `None` when the key-field search
found nothing. -/
def keyEq : Option Val → Option Val → Bool
  | none, none => true
  | some a, some b => valEq a b
  | _, _ => false

theorem keyEq_refl : (k : Option Val) → keyEq k k = true
  | none => rfl
  | some v => valEq_refl v

/-- First-match lookup in a Python dict (keys are unique, so first match is
the match). -/
def dlookup (fields : List (String × Val)) (key : String) : Option Val :=
  match fields with
  | [] => none
  | (k, v) :: rest => if k = key then some v else dlookup rest key

/-- Python `out[key] = value` on a dict with `Option Val` keys: overwriting an
existing key keeps its position, a new key is appended (insertion order). -/
def dictInsert (d : List (Option Val × Val)) (k : Option Val) (v : Val) :
    List (Option Val × Val) :=
  if d.any (fun p => keyEq p.1 k) then
    d.map (fun p => if keyEq p.1 k then (k, v) else p)
  else d ++ [(k, v)]

/-- Python `out[key] = value` on a string-keyed dict. -/
def strInsert (d : List (String × Val)) (k : String) (v : Val) :
    List (String × Val) :=
  if d.any (fun p => p.1 = k) then
    d.map (fun p => if p.1 = k then (k, v) else p)
  else d ++ [(k, v)]

/-- Python `k.replace('-', '_')` for the one-character pattern: replace every
hyphen character by an underscore. -/
def underscoreChar (c : Char) : Char := if c = '-' then '_' else c

/-- Python `k.replace('-', '_')` on a whole string. -/
def underscoreKey (s : String) : String := String.mk (s.data.map underscoreChar)

mutual

/-- `convert_keys(d)` from the source: on a dict, rebuild it with every key
hyphen-replaced and every value recursively converted; any non-dict value —
including a list, and hence every dict nested inside a list — is returned
unchanged. -/
def convert_keys : Val → Val
  | .vobj fields => .vobj (convertFields [] fields)
  | v => v

def convertFields (out : List (String × Val)) :
    List (String × Val) → List (String × Val)
  | [] => out
  | (k, v) :: rest => convertFields (strInsert out (underscoreKey k) (convert_keys v)) rest

end

/-- Python truthiness of a found value as seen by `_finditem`'s callers: the
function returns `obj[key]` directly, so a stored `None` is indistinguishable
from "not found". -/
def foundOpt : Val → Option Val
  | .vnull => none
  | v => some v

mutual

/-- `_finditem(obj, key)` from the source: return the value under `key` at
the current dict if present (parent before children), else the first match
found by depth-first traversal of the dict-valued fields in order of
appearance.  Called only on parsed records, which are dicts; a non-dict
argument has no fields to search. -/
def _finditem : Val → String → Option Val
  | .vobj fields, key =>
      match dlookup fields key with
      | some v => foundOpt v
      | none => finditemFields fields key
  | _, _ => none

def finditemFields : List (String × Val) → String → Option Val
  | [], _ => none
  | (_, v) :: rest, key =>
      match v with
      | .vobj f2 =>
          match _finditem (.vobj f2) key with
          | some item => some item
          | none => finditemFields rest key
      | _ => finditemFields rest key

end

/-- How a run of the module ends abnormally: `failJson` is an explicit
`module.fail_json(msg=...)` abort, `pyError` an unhandled Python exception. -/
inductive RunError : Type where
  | failJson : String → RunError
  | pyError : String → RunError
deriving DecidableEq, Repr

/-- A ZAPI response element, at the granularity the module observes: for each
child container name, the parsed forms of that container's children
(`get_child_by_name` then `get_children`, each child via `xmltodict.parse`). -/
abbrev Response := List (String × List Val)

/-- `get_child_by_name`: the first child container with the given name. -/
def getChildByName (r : Response) (name : String) : Option (List Val) :=
  match r with
  | [] => none
  | (n, cs) :: rest => if n = name then some cs else getChildByName rest name

/-- The external ZAPI session: `invoke_successfully` on a call name and query
parameters either returns a response or raises `NaApiError` with a detail
string. -/
abbrev Server := String → List (String × String) → Except String Response

/-- `call_api(call, query)` from the source: invoke the call; on `NaApiError`
return the (still-`None`) result when the call is
`security-key-manager-key-get-iter`, otherwise `fail_json` with a message
naming the call and the error. -/
def call_api (server : Server) (call : String) (query : List (String × String)) :
    Except RunError (Option Response) :=
  match server call query with
  | .ok r => .ok (some r)
  | .error e =>
      if call ∈ ["security-key-manager-key-get-iter"] then .ok none
      else .error (.failJson ("Error calling API " ++ call ++ ": " ++ e))

/-- The `field` argument of `get_generic_get_iter`: `None`, a single string,
or a tuple of strings. -/
inductive FieldSpec : Type where
  | fnone : FieldSpec
  | fsingle : String → FieldSpec
  | ftuple : List String → FieldSpec

/-- A fact table: a keyed dict when a key field is configured, a plain
sequence otherwise. -/
inductive FactTable : Type where
  | keyed : List (Option Val × Val) → FactTable
  | seq : List Val → FactTable

/-- The elements handed to `':'.join(...)`: each must be a string, anything
else (including `None` from a failed field search) raises `TypeError`. -/
def collectStrs : List (Option Val) → Except RunError (List String)
  | [] => .ok []
  | some (.vstr s) :: rest =>
      match collectStrs rest with
      | .ok tail => .ok (s :: tail)
      | .error e => .error e
  | _ :: _ => .error (.pyError "TypeError: sequence item: expected str instance")

/-- `':'.join([_finditem(d, el) for el in field])`. -/
def joinKeys (vs : List (Option Val)) : Except RunError String :=
  match collectStrs vs with
  | .ok ss => .ok (String.intercalate ":" ss)
  | .error e => .error e

/-- Python `d[attribute]` subscription: `KeyError` on a dict without the key,
`TypeError` on a non-dict. -/
def getItem (d : Val) (k : String) : Except RunError Val :=
  match d with
  | .vobj fs =>
      match dlookup fs k with
      | some v => .ok v
      | none => .error (.pyError ("KeyError: " ++ k))
  | _ => .error (.pyError "TypeError: value is not subscriptable")

/-- The initial accumulator of `get_generic_get_iter`: `[]` when `field` is
`None`, `{}` otherwise. -/
def initTable : FieldSpec → FactTable
  | .fnone => .seq []
  | _ => .keyed []

/-- One iteration of the record loop of `get_generic_get_iter`: descend into
the named attribute if configured, then key the converted record by the
single-field search result, by the colon-join of the tuple-field search
results, or append it unkeyed. -/
def addRecord (attrName : Option String) (field : FieldSpec) (out : FactTable)
    (child : Val) : Except RunError FactTable :=
  match (match attrName with
         | some a => getItem child a
         | none => .ok child : Except RunError Val) with
  | .error e => .error e
  | .ok d =>
      match field, out with
      | .fsingle f, .keyed t =>
          .ok (.keyed (dictInsert t (_finditem d f) (convert_keys d)))
      | .ftuple fs, .keyed t =>
          match joinKeys (fs.map (fun el => _finditem d el)) with
          | .ok key => .ok (.keyed (dictInsert t (some (.vstr key)) (convert_keys d)))
          | .error e => .error e
      | .fnone, .seq l => .ok (.seq (l ++ [convert_keys d]))
      | _, _ => .error (.pyError "unreachable: table shape mismatch")

/-- The full record loop of `get_generic_get_iter`. -/
def buildTable (attrName : Option String) (field : FieldSpec) (out : FactTable) :
    List Val → Except RunError FactTable
  | [] => .ok out
  | c :: rest =>
      match addRecord attrName field out c with
      | .ok out2 => buildTable attrName field out2 rest
      | .error e => .error e

/-- `get_generic_get_iter(call, attribute, field, query, children)` from the
source: call the API; a `None` result (downgraded key-manager failure) or a
missing child container yields `None`; otherwise fold the container's
children into a fact table. -/
def get_generic_get_iter (server : Server) (call : String)
    (attrName : Option String) (field : FieldSpec)
    (query : List (String × String)) (children : String) :
    Except RunError (Option FactTable) :=
  match call_api server call query with
  | .error e => .error e
  | .ok none => .ok none
  | .ok (some resp) =>
      match getChildByName resp children with
      | none => .ok none
      | some cs =>
          match buildTable attrName field (initTable field) cs with
          | .ok t => .ok (some t)
          | .error e => .error e

/-- `net_port_info[ifn]['port_type'] == 'if_group'` for one record of the
network-port table. -/
def portTypeIsIfgrp (rec : Val) : Except RunError Bool :=
  match getItem rec "port_type" with
  | .ok (.vstr s) => .ok (s == "if_group")
  | .ok _ => .ok false
  | .error e => .error e

/-- The filter loop of `get_ifgrp_info`: the keys of the network-port table
whose record's `port_type` is `if_group`, in table order. -/
def selectIfgrps : List (Option Val × Val) → Except RunError (List (Option Val))
  | [] => .ok []
  | (k, rec) :: rest =>
      match portTypeIsIfgrp rec with
      | .error e => .error e
      | .ok b =>
          match selectIfgrps rest with
          | .error e => .error e
          | .ok tail => .ok (if b then k :: tail else tail)

/-- Python `s.split(c)` for a one-character separator, on the character
list: split at every occurrence of the separator. -/
def splitChars (delim : Char) : List Char → List (List Char)
  | [] => [[]]
  | c :: rest =>
      match splitChars delim rest with
      | head :: tail => if c = delim then [] :: head :: tail else (c :: head) :: tail
      | [] => if c = delim then [[], []] else [[c]]

/-- Python `s.split(':')` on a string. -/
def pySplitColon (s : String) : List String :=
  (splitChars ':' s.data).map String.mk

/-- `query['node'], query['ifgrp-name'] = ifgrp.split(':')`: a non-string key
has no `split` (`AttributeError`); a split that does not yield exactly two
parts fails tuple unpacking (`ValueError`). -/
def splitIfgrpKey : Option Val → Except RunError (String × String)
  | some (.vstr s) =>
      match pySplitColon s with
      | [node, grp] => .ok (node, grp)
      | _ => .error (.pyError "ValueError: unpacking ifgrp key")
  | _ => .error (.pyError "AttributeError: key has no attribute split")

/-- `net_ifgrp_info.update(tmp)`: fold the entries of `tmp` into the
accumulated dict. -/
def mergeKeyed (acc t : List (Option Val × Val)) : List (Option Val × Val) :=
  t.foldl (fun a p => dictInsert a p.1 p.2) acc

/-- The per-group loop of `get_ifgrp_info`: split each selected key into node
and group name, issue one `net-port-ifgrp-get` lookup with those two query
parameters, and merge the result into the accumulated table (`update(None)`
raises `TypeError`). -/
def ifgrpLoop (server : Server) (acc : List (Option Val × Val)) :
    List (Option Val) → Except RunError (List (Option Val × Val))
  | [] => .ok acc
  | k :: rest =>
      match splitIfgrpKey k with
      | .error e => .error e
      | .ok (node, grp) =>
          match get_generic_get_iter server "net-port-ifgrp-get"
              (some "net-ifgrp-info") (.ftuple ["node", "ifgrp-name"])
              [("node", node), ("ifgrp-name", grp)] "attributes" with
          | .error e => .error e
          | .ok none => .error (.pyError "TypeError: NoneType object is not iterable")
          | .ok (some (.seq _)) => .error (.pyError "ValueError: dict update sequence")
          | .ok (some (.keyed t)) => ifgrpLoop server (mergeKeyed acc t) rest

/-- `get_ifgrp_info()` from the source: enumerate the keys of the previously
stored `net_port_info` table (an absent table has no `keys`:
`AttributeError`), keep those whose port type is `if_group`, and run the
per-group lookup loop. -/
def get_ifgrp_info (server : Server) (net_port_info : Option FactTable) :
    Except RunError FactTable :=
  match net_port_info with
  | none => .error (.pyError "AttributeError: NoneType object has no attribute keys")
  | some (.seq _) => .error (.pyError "AttributeError: list object has no attribute keys")
  | some (.keyed entries) =>
      match selectIfgrps entries with
      | .error e => .error e
      | .ok ifgrps =>
          match ifgrpLoop server [] ifgrps with
          | .error e => .error e
          | .ok t => .ok (.keyed t)

/-- The final `netapp_info` dict: category name to fact table, a category
whose collection yielded `None` being stored as `none`. -/
abbrev FactSet := List (String × Option FactTable)

/-- `get_all()` from the source: the fixed catalog, in source order, each
failure aborting the run at that point. -/
def get_all (server : Server) : Except RunError FactSet :=
  match get_generic_get_iter server "net-interface-get-iter"
      (some "net-interface-info") (.fsingle "interface-name")
      [("max-records", "1024")] "attributes-list" with
  | .error e => .error e
  | .ok net_interface_info =>
  match get_generic_get_iter server "net-port-get-iter"
      (some "net-port-info") (.ftuple ["node", "port"])
      [("max-records", "1024")] "attributes-list" with
  | .error e => .error e
  | .ok net_port_info =>
  match get_generic_get_iter server "cluster-node-get-iter"
      (some "cluster-node-info") (.fsingle "node-name")
      [("max-records", "1024")] "attributes-list" with
  | .error e => .error e
  | .ok cluster_node_info =>
  match get_generic_get_iter server "security-login-get-iter"
      (some "security-login-account-info")
      (.ftuple ["user-name", "application", "authentication-method"])
      [("max-records", "1024")] "attributes-list" with
  | .error e => .error e
  | .ok security_login_account_info =>
  match get_generic_get_iter server "aggr-get-iter"
      (some "aggr-attributes") (.fsingle "aggregate-name")
      [("max-records", "1024")] "attributes-list" with
  | .error e => .error e
  | .ok aggregate_info =>
  match get_generic_get_iter server "volume-get-iter"
      (some "volume-attributes") (.ftuple ["name", "owning-vserver-name", "aggr-name"])
      [("max-records", "1024")] "attributes-list" with
  | .error e => .error e
  | .ok volume_info =>
  match get_generic_get_iter server "lun-get-iter"
      (some "lun-info") (.fsingle "path")
      [("max-records", "1024")] "attributes-list" with
  | .error e => .error e
  | .ok lun_info =>
  match get_generic_get_iter server "cf-get-iter"
      (some "storage-failover-info") (.fsingle "node")
      [("max-records", "1024")] "attributes-list" with
  | .error e => .error e
  | .ok storage_failover_info =>
  match get_ifgrp_info server net_port_info with
  | .error e => .error e
  | .ok net_ifgrp_info =>
  match get_generic_get_iter server "vserver-motd-get-iter"
      (some "vserver-motd-info") (.fsingle "vserver")
      [("max-records", "1024")] "attributes-list" with
  | .error e => .error e
  | .ok vserver_motd_info =>
  match get_generic_get_iter server "vserver-login-banner-get-iter"
      (some "vserver-login-banner-info") (.fsingle "vserver")
      [("max-records", "1024")] "attributes-list" with
  | .error e => .error e
  | .ok vserver_login_banner_info =>
  match get_generic_get_iter server "security-key-manager-key-get-iter"
      (some "security-key-manager-key-info") (.ftuple ["node", "key-id"])
      [("max-records", "1024")] "attributes-list" with
  | .error e => .error e
  | .ok security_key_manager_key_info =>
  match get_generic_get_iter server "vserver-get-iter"
      (some "vserver-info") (.fsingle "vserver-name")
      [("max-records", "1024")] "attributes-list" with
  | .error e => .error e
  | .ok vserver_info =>
      .ok [("net_interface_info", net_interface_info),
           ("net_port_info", net_port_info),
           ("cluster_node_info", cluster_node_info),
           ("security_login_account_info", security_login_account_info),
           ("aggregate_info", aggregate_info),
           ("volume_info", volume_info),
           ("lun_info", lun_info),
           ("storage_failover_info", storage_failover_info),
           ("net_ifgrp_info", some net_ifgrp_info),
           ("vserver_motd_info", vserver_motd_info),
           ("vserver_login_banner_info", vserver_login_banner_info),
           ("security_key_manager_key_info", security_key_manager_key_info),
           ("vserver_info", vserver_info)]

/-- Whether a completed run's fact set contains the given category key. -/
def fsHasKey (r : Except RunError FactSet) (k : String) : Bool :=
  match r with
  | .ok fs => fs.any (fun p => p.1 == k)
  | .error _ => false

/-- The value stored under a category key of a completed run's fact set. -/
def fsGet (r : Except RunError FactSet) (k : String) : Option (Option FactTable) :=
  match r with
  | .ok fs => (fs.find? (fun p => p.1 == k)).map (fun p => p.2)
  | .error _ => none


/-! ### Predicates about hyphen rewriting -/

/-- Whether a field name contains no hyphen character. -/
def hyphenFree (s : String) : Bool := s.data.all (fun c => c != '-')

mutual

/-- Every field name is hyphen-free at every nesting depth reachable through
dicts alone (contents of lists are not inspected). -/
def keysClean : Val → Bool
  | .vobj fs => fieldsClean fs
  | _ => true

def fieldsClean : List (String × Val) → Bool
  | [] => true
  | (k, v) :: rest => hyphenFree k && keysClean v && fieldsClean rest

end

mutual

/-- Every field name is hyphen-free at every nesting depth, descending into
dicts and lists alike. -/
def deepKeysClean : Val → Bool
  | .vobj fs => deepFieldsClean fs
  | .varr l => deepListClean l
  | _ => true

def deepFieldsClean : List (String × Val) → Bool
  | [] => true
  | (k, v) :: rest => hyphenFree k && deepKeysClean v && deepFieldsClean rest

def deepListClean : List Val → Bool
  | [] => true
  | v :: rest => deepKeysClean v && deepListClean rest

end

theorem underscoreChar_ne (c : Char) : (underscoreChar c != '-') = true := by
  unfold underscoreChar
  split
  · decide
  · simpa [bne_iff_ne] using (by assumption : ¬ c = '-')

theorem hyphenFree_underscoreKey (s : String) : hyphenFree (underscoreKey s) = true := by
  show (s.data.map underscoreChar).all (fun c => c != '-') = true
  induction s.data with
  | nil => rfl
  | cons c rest ih => simp only [List.map_cons, List.all_cons, ih, underscoreChar_ne,
      Bool.and_self]

theorem fieldsClean_eq_all (l : List (String × Val)) :
    fieldsClean l = l.all (fun p => hyphenFree p.1 && keysClean p.2) := by
  induction l with
  | nil => rfl
  | cons p rest ih => cases p with
    | mk k v => simp [fieldsClean, ih, Bool.and_assoc]

theorem fieldsClean_strInsert (d : List (String × Val)) (k : String) (v : Val)
    (hd : fieldsClean d = true) (hk : hyphenFree k = true) (hv : keysClean v = true) :
    fieldsClean (strInsert d k v) = true := by
  rw [fieldsClean_eq_all] at hd ⊢
  unfold strInsert
  split
  · rw [List.all_eq_true] at hd ⊢
    intro x hx
    rcases List.mem_map.1 hx with ⟨p, hp, rfl⟩
    by_cases hpk : p.1 = k
    · simp [hpk, hk, hv]
    · simpa [hpk] using hd p hp
  · simp [List.all_append, hd, hk, hv]

mutual

theorem keysClean_convert : (v : Val) → keysClean (convert_keys v) = true
  | .vnull => rfl
  | .vstr _ => rfl
  | .vnum _ => rfl
  | .varr _ => rfl
  | .vobj fs => by
      show fieldsClean (convertFields [] fs) = true
      exact fieldsClean_convertFields [] fs rfl

theorem fieldsClean_convertFields : (out : List (String × Val)) →
    (l : List (String × Val)) → fieldsClean out = true →
    fieldsClean (convertFields out l) = true
  | out, [], h => by simpa [convertFields] using h
  | out, (k, v) :: rest, h => by
      show fieldsClean (convertFields (strInsert out (underscoreKey k) (convert_keys v)) rest) = true
      exact fieldsClean_convertFields _ rest
        (fieldsClean_strInsert out _ _ h (hyphenFree_underscoreKey k) (keysClean_convert v))

end

/-! ### Helper lemmas about key joining -/

theorem collectStrs_strs : (ss : List String) →
    collectStrs (ss.map (fun s => some (.vstr s))) = .ok ss
  | [] => rfl
  | s :: rest => by simp [collectStrs, collectStrs_strs rest]

theorem joinKeys_strs (ss : List String) :
    joinKeys (ss.map (fun s => some (.vstr s))) = .ok (String.intercalate ":" ss) := by
  simp [joinKeys, collectStrs_strs ss]

theorem collectStrs_none (vs : List (Option Val)) (h : none ∈ vs) :
    collectStrs vs = .error (.pyError "TypeError: sequence item: expected str instance") := by
  induction vs with
  | nil => cases h
  | cons v rest ih =>
      cases v with
      | none => rfl
      | some w =>
          have hr : none ∈ rest := by
            rcases List.mem_cons.1 h with h1 | h1
            · cases h1
            · exact h1
          cases w with
          | vstr s => simp [collectStrs, ih hr]
          | vnull => rfl
          | vnum n => rfl
          | vobj fs => rfl
          | varr l => rfl

/-! ### Concrete demonstration servers -/

/-- A response carrying an empty default record container. -/
def emptyIterResponse : Response := [("attributes-list", [])]

/-- A session on which only the key-manager call raises `NaApiError`. -/
def srvKmFail : Server := fun call _q =>
  if call = "security-key-manager-key-get-iter" then .error "no key manager"
  else .ok emptyIterResponse

/-- The fact set produced by a run against `srvKmFail`. -/
def kmFailFactSet : FactSet :=
  [("net_interface_info", some (.keyed [])),
   ("net_port_info", some (.keyed [])),
   ("cluster_node_info", some (.keyed [])),
   ("security_login_account_info", some (.keyed [])),
   ("aggregate_info", some (.keyed [])),
   ("volume_info", some (.keyed [])),
   ("lun_info", some (.keyed [])),
   ("storage_failover_info", some (.keyed [])),
   ("net_ifgrp_info", some (.keyed [])),
   ("vserver_motd_info", some (.keyed [])),
   ("vserver_login_banner_info", some (.keyed [])),
   ("security_key_manager_key_info", none),
   ("vserver_info", some (.keyed []))]

/-- A session on which only the aggregate call raises `NaApiError`. -/
def srvAggrFail : Server := fun call _q =>
  if call = "aggr-get-iter" then .error "aggr boom"
  else .ok emptyIterResponse

/-- A parsed `net-port-get-iter` child for a physical port. -/
def physPortChild : Val :=
  .vobj [("net-port-info",
    .vobj [("node", .vstr "nodeA"), ("port", .vstr "e0a"),
           ("port-type", .vstr "physical")])]

/-- A parsed `net-port-get-iter` child for an interface-group port. -/
def ifgrpPortChild : Val :=
  .vobj [("net-port-info",
    .vobj [("node", .vstr "nodeA"), ("port", .vstr "a0a"),
           ("port-type", .vstr "if_group")])]

/-- A parsed `net-port-ifgrp-get` child. -/
def ifgrpRecChild : Val :=
  .vobj [("net-ifgrp-info",
    .vobj [("ifgrp-name", .vstr "a0a"), ("node", .vstr "nodeA"),
           ("mode", .vstr "multimode")])]

/-- A session that answers the interface-group lookup only for the exact
query node=nodeA, ifgrp-name=a0a, and reports the network-port table with one
physical port and one interface group. -/
def srvIfgrp : Server := fun call q =>
  if call = "net-port-ifgrp-get" then
    (if q = [("node", "nodeA"), ("ifgrp-name", "a0a")] then
      .ok [("attributes", [ifgrpRecChild])]
     else .error "wrong query")
  else if call = "net-port-get-iter" then
    .ok [("attributes-list", [physPortChild, ifgrpPortChild])]
  else .ok emptyIterResponse

/-- The network-port fact table produced from `srvIfgrp` (keys joined from
node and port, record field names underscored). -/
def examplePorts : List (Option Val × Val) :=
  [(some (.vstr "nodeA:e0a"),
    .vobj [("node", .vstr "nodeA"), ("port", .vstr "e0a"),
           ("port_type", .vstr "physical")]),
   (some (.vstr "nodeA:a0a"),
    .vobj [("node", .vstr "nodeA"), ("port", .vstr "a0a"),
           ("port_type", .vstr "if_group")])]

/-- A session on which the network-port response lacks the record container,
so the network-port category is absent. -/
def srvNoPort : Server := fun call _q =>
  if call = "net-port-get-iter" then .ok []
  else .ok emptyIterResponse

/-- A session reporting a single physical network port and no interface
group. -/
def srvPhysOnly : Server := fun call _q =>
  if call = "net-port-get-iter" then .ok [("attributes-list", [physPortChild])]
  else .ok emptyIterResponse

/-! ### Claims -/

/-- Claim C1: a protocol-level `NaApiError` is downgraded exactly for the
call `security-key-manager-key-get-iter`: `call_api` then returns no response
instead of aborting, while the same error on any other call name aborts the
run; on a full run with a failing key-manager call the category key
`security_key_manager_key_info` is mapped to absence and the run completes
successfully. -/
theorem claim_C1 :
    (∀ (server : Server) (call : String) (q : List (String × String)) (e : String),
      server call q = .error e →
      call_api server call q =
        (if call = "security-key-manager-key-get-iter" then .ok none
         else .error (.failJson ("Error calling API " ++ call ++ ": " ++ e)))) ∧
    get_all srvKmFail = .ok kmFailFactSet ∧
    fsGet (get_all srvKmFail) "security_key_manager_key_info" = some none := by
  refine ⟨?_, rfl, rfl⟩
  intro server call q e h
  simp only [call_api, h, List.mem_singleton]

/-- Witness for claim C1: on a session that always raises, the key-manager
call yields no response while a volume call aborts with the formatted
message. -/
theorem claim_C1_witness :
    call_api (fun _ _ => .error "boom") "security-key-manager-key-get-iter" [] = .ok none ∧
    call_api (fun _ _ => .error "boom") "volume-get-iter" [] =
      .error (.failJson "Error calling API volume-get-iter: boom") := by
  constructor
  · exact (claim_C1.1 (fun _ _ => .error "boom") "security-key-manager-key-get-iter" [] "boom" rfl).trans rfl
  · exact (claim_C1.1 (fun _ _ => .error "boom") "volume-get-iter" [] "boom" rfl).trans rfl

/-- Claim C4: a protocol-level failure of any call other than the key-manager
call aborts the whole run via `fail_json` with a message containing the call
name and the error detail, and a full run against a session whose aggregate
call fails ends in exactly that abort with no partial result. -/
theorem claim_C4 :
    (∀ (server : Server) (call : String) (q : List (String × String)) (e : String),
      call ≠ "security-key-manager-key-get-iter" →
      server call q = .error e →
      call_api server call q =
        .error (.failJson ("Error calling API " ++ call ++ ": " ++ e))) ∧
    get_all srvAggrFail = .error (.failJson "Error calling API aggr-get-iter: aggr boom") := by
  refine ⟨?_, rfl⟩
  intro server call q e hne h
  simp only [call_api, h, List.mem_singleton, if_neg hne]

/-- Witness for claim C4: a failing LUN call aborts with the formatted
message. -/
theorem claim_C4_witness :
    call_api (fun _ _ => .error "io fail") "lun-get-iter" [] =
      .error (.failJson "Error calling API lun-get-iter: io fail") :=
  claim_C4.1 (fun _ _ => .error "io fail") "lun-get-iter" [] "io fail" (by decide) rfl

/-- Counterexample to claim C5: after a run whose key-manager call failed,
the final fact set does contain the category key
`security_key_manager_key_info` — mapped to `None` — rather than lacking the
key altogether as the claim states. -/
theorem claim_C5_counterexample :
    fsHasKey (get_all srvKmFail) "security_key_manager_key_info" = true ∧
    fsGet (get_all srvKmFail) "security_key_manager_key_info" = some none :=
  ⟨rfl, rfl⟩

/-- Claim C5 as amended: when a call yields no response, normalize
(`get_generic_get_iter`) returns absence, and the category key is then
present in the final fact set mapped to absence (`None`) — not to an empty
collection, and not missing from the set. -/
theorem claim_C5 :
    (∀ (server : Server) (call : String) (attrName : Option String)
       (field : FieldSpec) (q : List (String × String)) (children : String),
      call_api server call q = .ok none →
      get_generic_get_iter server call attrName field q children = .ok none) ∧
    fsGet (get_all srvKmFail) "security_key_manager_key_info" = some none ∧
    fsHasKey (get_all srvKmFail) "security_key_manager_key_info" = true := by
  refine ⟨?_, rfl, rfl⟩
  intro server call attrName field q children h
  simp only [get_generic_get_iter, h]

/-- Witness for claim C5: on `srvKmFail` the key-manager category normalizes
to absence. -/
theorem claim_C5_witness :
    get_generic_get_iter srvKmFail "security-key-manager-key-get-iter"
      (some "security-key-manager-key-info") (.ftuple ["node", "key-id"])
      [("max-records", "1024")] "attributes-list" = .ok none :=
  claim_C5.1 srvKmFail "security-key-manager-key-get-iter"
    (some "security-key-manager-key-info") (.ftuple ["node", "key-id"])
    [("max-records", "1024")] "attributes-list" rfl

/-- Claim C2: normalize derives the table key from the record before
field-name rewriting — a single key field yields that field's searched value
unchanged, a tuple of key fields yields the values joined by a colon in
declared order — while the stored record itself is the hyphen-to-underscore
converted form, whose field names are hyphen-free at every dict depth. -/
theorem claim_C2 :
    (∀ (server : Server) (call : String) (q : List (String × String)) (d : Val) (f : String),
      server call q = .ok [("attributes-list", [d])] →
      get_generic_get_iter server call none (.fsingle f) q "attributes-list" =
        .ok (some (.keyed [(_finditem d f, convert_keys d)]))) ∧
    (∀ (server : Server) (call : String) (q : List (String × String)) (d : Val)
       (fs ss : List String),
      server call q = .ok [("attributes-list", [d])] →
      fs.map (fun el => _finditem d el) = ss.map (fun s => some (.vstr s)) →
      get_generic_get_iter server call none (.ftuple fs) q "attributes-list" =
        .ok (some (.keyed [(some (.vstr (String.intercalate ":" ss)), convert_keys d)]))) ∧
    (∀ d : Val, keysClean (convert_keys d) = true) := by
  refine ⟨?_, ?_, keysClean_convert⟩
  · intro server call q d f h
    simp [get_generic_get_iter, call_api, h, getChildByName, initTable, buildTable,
      addRecord, dictInsert]
  · intro server call q d fs ss h hmap
    simp [get_generic_get_iter, call_api, h, getChildByName, initTable, buildTable,
      addRecord, dictInsert, hmap, joinKeys_strs]

/-- A record with hyphenated field names and a hyphenated key value. -/
def hyphRecord : Val :=
  .vobj [("interface-name", .vstr "lif-1"), ("home-node", .vstr "node-1")]

/-- A record carrying the two fields of a composite key. -/
def pairRecord : Val :=
  .vobj [("node", .vstr "nodeA"), ("port", .vstr "e0a-1")]

/-- Witness for claim C2: the single-field key keeps its hyphen while the
stored record is underscored, and the composite key is the colon-join in
declared order. -/
theorem claim_C2_witness :
    get_generic_get_iter (fun _ _ => .ok [("attributes-list", [hyphRecord])])
      "net-interface-get-iter" none (.fsingle "interface-name") [] "attributes-list" =
      .ok (some (.keyed [(some (.vstr "lif-1"),
        .vobj [("interface_name", .vstr "lif-1"), ("home_node", .vstr "node-1")])])) ∧
    get_generic_get_iter (fun _ _ => .ok [("attributes-list", [pairRecord])])
      "net-port-get-iter" none (.ftuple ["node", "port"]) [] "attributes-list" =
      .ok (some (.keyed [(some (.vstr "nodeA:e0a-1"),
        .vobj [("node", .vstr "nodeA"), ("port", .vstr "e0a-1")])])) := by
  constructor
  · exact (claim_C2.1 (fun _ _ => .ok [("attributes-list", [hyphRecord])])
      "net-interface-get-iter" [] hyphRecord "interface-name" rfl).trans rfl
  · exact (claim_C2.2.1 (fun _ _ => .ok [("attributes-list", [pairRecord])])
      "net-port-get-iter" [] pairRecord ["node", "port"] ["nodeA", "e0a-1"] rfl rfl).trans rfl

/-- A record holding a dict nested inside a list. -/
def listNestedRecord : Val :=
  .vobj [("owning-vserver-name", .varr [.vobj [("sub-field", .vnum 1)]])]

/-- Counterexample to claim C3: `convert_keys` leaves a mapping nested inside
a sequence untouched — the inner field name `sub-field` keeps its hyphen, so
rewriting is not applied at every nesting depth through sequences. -/
theorem claim_C3_counterexample :
    convert_keys listNestedRecord =
      .vobj [("owning_vserver_name", .varr [.vobj [("sub-field", .vnum 1)]])] ∧
    deepKeysClean (convert_keys listNestedRecord) = false :=
  ⟨rfl, rfl⟩

/-- Claim C3 as amended: field-name rewriting replaces every hyphen with an
underscore recursively through nested mappings (the spec's dict-in-dict
example holds, and every converted record is hyphen-free at all depths
reachable through dicts), but a value that is a sequence is returned
unchanged, so mappings nested inside sequences are not rewritten. -/
theorem claim_C3 :
    convert_keys (.vobj [("owning-vserver-name", .vobj [("sub-field", .vnum 1)])]) =
      .vobj [("owning_vserver_name", .vobj [("sub_field", .vnum 1)])] ∧
    (∀ v : Val, keysClean (convert_keys v) = true) ∧
    (∀ l : List Val, convert_keys (.varr l) = .varr l) :=
  ⟨rfl, keysClean_convert, fun _ => rfl⟩

/-- Claim C7: the recursive field search returns the value under the key at
the current mapping when present (parent before children); otherwise the
first match of the depth-first traversal of the dict-valued fields in order
of appearance wins, and a child without a match passes the search on to the
remaining fields. -/
theorem claim_C7 :
    (∀ (fields : List (String × Val)) (key : String) (v : Val),
      dlookup fields key = some v → v ≠ .vnull →
      _finditem (.vobj fields) key = some v) ∧
    (∀ (key a : String) (f1 rest : List (String × Val)) (r : Val),
      dlookup ((a, .vobj f1) :: rest) key = none →
      _finditem (.vobj f1) key = some r →
      _finditem (.vobj ((a, .vobj f1) :: rest)) key = some r) ∧
    (∀ (key a : String) (f1 rest : List (String × Val)),
      dlookup ((a, .vobj f1) :: rest) key = none →
      _finditem (.vobj f1) key = none →
      _finditem (.vobj ((a, .vobj f1) :: rest)) key = finditemFields rest key) := by
  refine ⟨?_, ?_, ?_⟩
  · intro fields key v h1 h2
    have hv : foundOpt v = some v := by
      cases v with
      | vnull => exact absurd rfl h2
      | vstr s => rfl
      | vnum n => rfl
      | vobj fs => rfl
      | varr l => rfl
    simp only [_finditem, h1, hv]
  · intro key a f1 rest r h1 h2
    have hfold : (match dlookup f1 key with
        | some v => foundOpt v
        | none => finditemFields f1 key) = some r := by
      rw [← h2]
      simp only [_finditem]
    simp only [_finditem, h1, finditemFields, hfold]
  · intro key a f1 rest h1 h2
    have hfold : (match dlookup f1 key with
        | some v => foundOpt v
        | none => finditemFields f1 key) = none := by
      rw [← h2]
      simp only [_finditem]
    simp only [_finditem, h1, finditemFields, hfold]

/-- Witness for claim C7: a top-level key shadows a nested one, the first
child in order wins over a later child, and a child without the key is
skipped. -/
theorem claim_C7_witness :
    _finditem (.vobj [("x", .vnum 1), ("y", .vobj [("x", .vnum 2)])]) "x" = some (.vnum 1) ∧
    _finditem (.vobj [("a", .vobj [("k", .vnum 1)]), ("b", .vobj [("k", .vnum 2)])]) "k" =
      some (.vnum 1) ∧
    _finditem (.vobj [("a", .vobj [("z", .vnum 1)]), ("b", .vobj [("k", .vnum 2)])]) "k" =
      some (.vnum 2) := by
  refine ⟨?_, ?_, ?_⟩
  · exact claim_C7.1 [("x", .vnum 1), ("y", .vobj [("x", .vnum 2)])] "x" (.vnum 1) rfl
      (fun hh => Val.noConfusion hh)
  · exact claim_C7.2.1 "k" "a" [("k", .vnum 1)] [("b", .vobj [("k", .vnum 2)])] (.vnum 1)
      rfl rfl
  · exact (claim_C7.2.2 "k" "a" [("z", .vnum 1)] [("b", .vobj [("k", .vnum 2)])]
      rfl rfl).trans rfl

/-- Claim C8: normalize performs no deduplication — two records of one
response deriving the same key leave a single table entry holding the
normalized form of the later record. -/
theorem claim_C8 :
    ∀ (server : Server) (call : String) (q : List (String × String)) (d1 d2 : Val)
      (f : String),
      server call q = .ok [("attributes-list", [d1, d2])] →
      _finditem d1 f = _finditem d2 f →
      get_generic_get_iter server call none (.fsingle f) q "attributes-list" =
        .ok (some (.keyed [(_finditem d2 f, convert_keys d2)])) := by
  intro server call q d1 d2 f h h2
  simp [get_generic_get_iter, call_api, h, getChildByName, initTable, buildTable,
    addRecord, dictInsert, h2, keyEq_refl]

/-- Two volume records sharing the key field value `vol1`. -/
def volRecord1 : Val := .vobj [("name", .vstr "vol1"), ("size-mb", .vnum 10)]

/-- A later volume record with the same key and a different size. -/
def volRecord2 : Val := .vobj [("name", .vstr "vol1"), ("size-mb", .vnum 20)]

/-- Witness for claim C8: the later of two same-key records silently
overwrites the earlier one. -/
theorem claim_C8_witness :
    get_generic_get_iter (fun _ _ => .ok [("attributes-list", [volRecord1, volRecord2])])
      "volume-get-iter" none (.fsingle "name") [] "attributes-list" =
      .ok (some (.keyed [(some (.vstr "vol1"),
        .vobj [("name", .vstr "vol1"), ("size_mb", .vnum 20)])])) :=
  (claim_C8 (fun _ _ => .ok [("attributes-list", [volRecord1, volRecord2])])
    "volume-get-iter" [] volRecord1 volRecord2 "name" rfl rfl).trans rfl

/-- Claim C9: normalize does not guard against a missing key field — with a
single key field a record in which the search finds nothing is stored under
the absent (`None`) key, and with a tuple of key fields any unfound listed
field makes the colon-join raise, so the error branch is reachable. -/
theorem claim_C9 :
    (∀ (server : Server) (call : String) (q : List (String × String)) (d : Val)
       (f : String),
      server call q = .ok [("attributes-list", [d])] →
      _finditem d f = none →
      get_generic_get_iter server call none (.fsingle f) q "attributes-list" =
        .ok (some (.keyed [(none, convert_keys d)]))) ∧
    (∀ (server : Server) (call : String) (q : List (String × String)) (d : Val)
       (fs : List String),
      server call q = .ok [("attributes-list", [d])] →
      none ∈ fs.map (fun el => _finditem d el) →
      get_generic_get_iter server call none (.ftuple fs) q "attributes-list" =
        .error (.pyError "TypeError: sequence item: expected str instance")) := by
  constructor
  · intro server call q d f h h2
    simp [get_generic_get_iter, call_api, h, getChildByName, initTable, buildTable,
      addRecord, dictInsert, h2]
  · intro server call q d fs h hmem
    simp [get_generic_get_iter, call_api, h, getChildByName, initTable, buildTable,
      addRecord, joinKeys, collectStrs_none _ hmem]

/-- A record lacking the `key-id` field. -/
def nodeOnlyRecord : Val := .vobj [("node", .vstr "n1")]

/-- Witness for claim C9: a record without the single key field is stored
under the `None` key, and with a composite key the same record makes the run
raise `TypeError`. -/
theorem claim_C9_witness :
    get_generic_get_iter (fun _ _ => .ok [("attributes-list", [nodeOnlyRecord])])
      "security-key-manager-key-get-iter" none (.fsingle "key-id") [] "attributes-list" =
      .ok (some (.keyed [(none, .vobj [("node", .vstr "n1")])])) ∧
    get_generic_get_iter (fun _ _ => .ok [("attributes-list", [nodeOnlyRecord])])
      "security-key-manager-key-get-iter" none (.ftuple ["node", "key-id"]) [] "attributes-list" =
      .error (.pyError "TypeError: sequence item: expected str instance") := by
  constructor
  · exact (claim_C9.1 (fun _ _ => .ok [("attributes-list", [nodeOnlyRecord])])
      "security-key-manager-key-get-iter" [] nodeOnlyRecord "key-id" rfl rfl).trans rfl
  · exact claim_C9.2 (fun _ _ => .ok [("attributes-list", [nodeOnlyRecord])])
      "security-key-manager-key-get-iter" [] nodeOnlyRecord ["node", "key-id"] rfl
      (List.Mem.tail _ (List.Mem.head _))

/-- Claim C6: the interface-group category is derived from the already
fetched network-port table — when the filter for `port_type = if_group`
selects a single composite key that splits on the colon into a node and a
group name, exactly one `net-port-ifgrp-get` lookup is issued with query
parameters node and ifgrp-name bound to those two parts, and its keyed
result is merged into the (initially empty) interface-group table. -/
theorem claim_C6 :
    ∀ (server : Server) (es : List (Option Val × Val)) (s node grp : String)
      (tmpT : List (Option Val × Val)),
      selectIfgrps es = .ok [some (.vstr s)] →
      pySplitColon s = [node, grp] →
      get_generic_get_iter server "net-port-ifgrp-get" (some "net-ifgrp-info")
          (.ftuple ["node", "ifgrp-name"]) [("node", node), ("ifgrp-name", grp)]
          "attributes" = .ok (some (.keyed tmpT)) →
      get_ifgrp_info server (some (.keyed es)) = .ok (.keyed (mergeKeyed [] tmpT)) := by
  intro server es s node grp tmpT h1 h2 h3
  simp only [get_ifgrp_info, h1, ifgrpLoop, splitIfgrpKey, h2, h3]

/-- Witness for claim C6: a network-port table with one physical port and
one interface group with composite key nodeA:a0a, against a session that
answers the group lookup only for the exact query node=nodeA,
ifgrp-name=a0a, yields the merged single-entry interface-group table. -/
theorem claim_C6_witness :
    get_ifgrp_info srvIfgrp (some (.keyed examplePorts)) =
      .ok (.keyed [(some (.vstr "nodeA:a0a"),
        .vobj [("ifgrp_name", .vstr "a0a"), ("node", .vstr "nodeA"),
               ("mode", .vstr "multimode")])]) :=
  (claim_C6 srvIfgrp examplePorts "nodeA:a0a" "nodeA" "a0a"
    [(some (.vstr "nodeA:a0a"),
      .vobj [("ifgrp_name", .vstr "a0a"), ("node", .vstr "nodeA"),
             ("mode", .vstr "multimode")])] rfl rfl rfl).trans rfl

/-- Claim C10: `get_all` presupposes a present, keyed network-port table —
when the network-port category is absent the interface-group derivation
fails on enumerating its keys (and a full run ends in that `AttributeError`
rather than an empty interface-group table), while a present table with no
`if_group` port yields a present, empty interface-group mapping. -/
theorem claim_C10 :
    (∀ server : Server, get_ifgrp_info server none =
      .error (.pyError "AttributeError: NoneType object has no attribute keys")) ∧
    get_all srvNoPort =
      .error (.pyError "AttributeError: NoneType object has no attribute keys") ∧
    (∀ (server : Server) (es : List (Option Val × Val)),
      selectIfgrps es = .ok [] →
      get_ifgrp_info server (some (.keyed es)) = .ok (.keyed [])) ∧
    fsGet (get_all srvPhysOnly) "net_ifgrp_info" = some (some (.keyed [])) := by
  refine ⟨fun server => rfl, rfl, ?_, rfl⟩
  intro server es h
  simp only [get_ifgrp_info, h, ifgrpLoop]

/-- Witness for claim C10: a network-port table holding a single physical
port produces a present but empty interface-group table. -/
theorem claim_C10_witness :
    get_ifgrp_info srvPhysOnly (some (.keyed [(some (.vstr "nodeA:e0a"),
      .vobj [("node", .vstr "nodeA"), ("port", .vstr "e0a"),
             ("port_type", .vstr "physical")])])) = .ok (.keyed []) :=
  claim_C10.2.2.1 srvPhysOnly [(some (.vstr "nodeA:e0a"),
    .vobj [("node", .vstr "nodeA"), ("port", .vstr "e0a"),
           ("port_type", .vstr "physical")])] rfl

end NaGatherFacts
